import Mathlib

/-!
# Grading-consistency validation engine: shallow embedding

Embedding of `backend-cal/cal_engine/assessment/models.py`.

The source defines four Django models (`Assessment`, `Question`,
`NATSolution`, `ChoiceSolution`) and three validation routines:

* `validate_total_marks` — a `post_save` receiver on `Question` that, for
  questions of type `'MCQ'` or `'MSQ'`, sums `marks` over the question's
  `choice_solutions` and raises a `ValidationError` if the sum differs
  from the question's declared `marks`;
* `NATSolution.clean` — for `value_type == 'float'`, requires
  `decimal_precision` to be non-null and checks, via the local helper
  `validate_decimal_precision`, that `value`, `tolerance_min` (if present)
  and `tolerance_max` (if present) each have at most `decimal_precision`
  digits after the decimal point of their `str()` form;
* `ChoiceSolution.clean` — for questions of type `'MCQ'`, raises a
  `ValidationError` when the choice being saved is flagged correct, some
  already-persisted sibling choice is flagged correct, and the saved
  choice's primary key is not among the correct siblings' primary keys.

Django `FloatField`s holding marks are modelled as `ℚ` (exact decimal
arithmetic; the examples in play are small integers).  The numeric fields
of `NATSolution` are modelled by their serialized decimal string (the
result of Python's `str(number)`), because the precision check in the
source operates on exactly that string.  Raised `ValidationError`s become
`Except` errors carrying the data interpolated into the source's message.
-/

namespace Assessment

/-- The four question types of `Question.QUESTION_TYPES`:
`'MCQ'` (multiple choice / single correct), `'MSQ'` (multiple select),
`'NAT'` (numerical answer), `'DESC'` (descriptive). -/
inductive QType
  | MCQ
  | MSQ
  | NAT
  | DESC
deriving DecidableEq, Repr

/-- The two choice formats of `ChoiceSolution.FORMAT_CHOICES`. -/
inductive ChoiceFormat
  | text
  | image
deriving DecidableEq, Repr

/-- The two value types of `NATSolution.VALUE_TYPES`:
`'int'` (Integer) and `'float'` (Float/Fractional). -/
inductive ValueType
  | int
  | float
deriving DecidableEq, Repr

/-- The fields of the `Question` model that the validators read:
`type`, `marks` (a `PositiveIntegerField`), and `partial_marking`. -/
structure Question where
  type : QType
  marks : ℕ
  partial_marking : Bool
deriving DecidableEq, Repr

/-- The fields of the `ChoiceSolution` model: the primary key `pk`
(`none` for a not-yet-saved row), `format`, `value`, `marks`
(a `FloatField`, modelled as `ℚ`), and `is_correct`. -/
structure ChoiceSolution where
  pk : Option ℕ
  format : ChoiceFormat
  value : String
  marks : ℚ
  is_correct : Bool
deriving DecidableEq, Repr

/-- The fields of the `NATSolution` model that `clean` reads.  `value`,
`tolerance_min` and `tolerance_max` are the serialized decimal strings
(Python `str(number)`) of the stored floats, since the precision check
in the source inspects exactly that string. -/
structure NATSolution where
  value_type : ValueType
  value : String
  tolerance_min : Option String
  tolerance_max : Option String
  decimal_precision : Option ℕ
deriving DecidableEq, Repr

/-- Errors raised by `validate_total_marks`: the `ValidationError`
message interpolates the sum over the choices (`actual`) and the
question's declared total (`expected`). -/
inductive ChoiceQuestionError
  | MarksMismatch (actual : ℚ) (expected : ℕ)
deriving DecidableEq, Repr

/-- Errors raised by `NATSolution.clean`: `MissingPrecision` for a null
`decimal_precision` on a float-typed solution, `PrecisionViolation` for a
field whose decimal digits exceed the declared precision (the message
names the offending field and the declared precision). -/
inductive NATError
  | MissingPrecision
  | PrecisionViolation (field : String) (declared : ℕ)
deriving DecidableEq, Repr

/-- The error raised by `ChoiceSolution.clean`: "For MCQ questions, only
one option can be marked as correct." -/
inductive ChoiceError
  | MultipleCorrectChoices
deriving DecidableEq, Repr

/-- Python's `str.split(".")` on the character list of a string: splits
at every `'.'`, keeping empty pieces, so `"3.145"` becomes
`[['3'], ['1','4','5']]` and a dot-free string is a single piece. -/
def splitOnDot : List Char → List (List Char)
  | [] => [[]]
  | c :: cs =>
    if c = '.' then [] :: splitOnDot cs
    else
      match splitOnDot cs with
      | [] => [[c]]
      | r :: rs => (c :: r) :: rs

/-- The expression `decimal_part = str(number).split(".")[-1] if "." in str(number) else ""`
from the helper inside `NATSolution.clean`, applied to the already
serialized string (as its character list). -/
def decimal_part (number : String) : List Char :=
  if number.data.contains '.' then (splitOnDot number.data).getLastD [] else []

/-- The helper `validate_decimal_precision` from `NATSolution.clean`:
`len(decimal_part) <= precision`. -/
def validate_decimal_precision (number : String) (precision : ℕ) : Bool :=
  (decimal_part number).length ≤ precision

/-- The `post_save` receiver `validate_total_marks`: for a question of
type `'MCQ'` or `'MSQ'`, sum the `marks` of all related choice solutions
and fail with the mismatch error when the sum differs from the question's
declared `marks`; otherwise (and for every other question type) succeed. -/
def validate_total_marks (question : Question)
    (choice_solutions : List ChoiceSolution) :
    Except ChoiceQuestionError Unit :=
  if question.type = .MCQ ∨ question.type = .MSQ then
    let total_marks_from_choices := (choice_solutions.map (·.marks)).sum
    if total_marks_from_choices ≠ (question.marks : ℚ) then
      .error (.MarksMismatch total_marks_from_choices question.marks)
    else
      .ok ()
  else
    .ok ()

/-- Method `NATSolution.clean`: when `value_type` is `'float'`, require
`decimal_precision` to be present, then check `value`, `tolerance_min`
(if present) and `tolerance_max` (if present) against it in that order,
raising on the first violating field; do nothing for `'int'`. -/
def NATSolution.clean (s : NATSolution) : Except NATError Unit :=
  if s.value_type = .float then
    match s.decimal_precision with
    | none => .error .MissingPrecision
    | some precision =>
      if ! validate_decimal_precision s.value precision then
        .error (.PrecisionViolation "value" precision)
      else if s.tolerance_min.any (fun t => ! validate_decimal_precision t precision) then
        .error (.PrecisionViolation "tolerance_min" precision)
      else if s.tolerance_max.any (fun t => ! validate_decimal_precision t precision) then
        .error (.PrecisionViolation "tolerance_max" precision)
      else
        .ok ()
  else
    .ok ()

/-- Method `ChoiceSolution.clean`: for an `'MCQ'` question, with
`choice_solutions` the question's already-persisted set of choices, fail
when the choice being saved is flagged correct, some persisted choice is
flagged correct, and the saved choice's `pk` is not among the correct
choices' `pk`s; succeed otherwise and for every other question type. -/
def ChoiceSolution.clean (question_type : QType)
    (choice_solutions : List ChoiceSolution) (self : ChoiceSolution) :
    Except ChoiceError Unit :=
  if question_type = .MCQ then
    let correct_options := choice_solutions.filter (·.is_correct)
    if self.is_correct = true ∧ ¬ correct_options.isEmpty = true ∧
        self.pk ∉ correct_options.map (·.pk) then
      .error .MultipleCorrectChoices
    else
      .ok ()
  else
    .ok ()

/-- C1: for every question of type MCQ (SingleChoice) or MSQ (MultiChoice),
`validate_total_marks` succeeds iff the sum of `marks` over the supplied
choices equals the question's declared total marks exactly, and on a
mismatch it fails with `MarksMismatch` carrying the actual sum and the
expected total `question.marks`. -/
theorem validate_total_marks_exact_sum (q : Question)
    (choices : List ChoiceSolution)
    (happ : q.type = QType.MCQ ∨ q.type = QType.MSQ) :
    (validate_total_marks q choices = .ok ()
        ↔ (choices.map (·.marks)).sum = (q.marks : ℚ)) ∧
    ((choices.map (·.marks)).sum ≠ (q.marks : ℚ) →
      validate_total_marks q choices
        = .error (.MarksMismatch ((choices.map (·.marks)).sum) q.marks)) := by
  unfold validate_total_marks
  rw [if_pos happ]
  by_cases h : (choices.map (·.marks)).sum = (q.marks : ℚ) <;> simp [h]

/-- Witness for C1: an MCQ question with marks 10 succeeds on choice marks
4 and 6, and fails with `MarksMismatch 9 10` on choice marks 4 and 5. -/
theorem validate_total_marks_exact_sum_witness :
    validate_total_marks
        { type := QType.MCQ, marks := 10, partial_marking := false }
        [{ pk := some 1, format := .text, value := "A", marks := 4, is_correct := true },
         { pk := some 2, format := .text, value := "B", marks := 6, is_correct := false }]
      = .ok () ∧
    validate_total_marks
        { type := QType.MCQ, marks := 10, partial_marking := false }
        [{ pk := some 1, format := .text, value := "A", marks := 4, is_correct := true },
         { pk := some 2, format := .text, value := "B", marks := 5, is_correct := false }]
      = .error (.MarksMismatch 9 10) := by
  constructor
  · exact (validate_total_marks_exact_sum _ _ (Or.inl rfl)).1.mpr (by norm_num)
  · have h := (validate_total_marks_exact_sum
      { type := QType.MCQ, marks := 10, partial_marking := false }
      [{ pk := some 1, format := .text, value := "A", marks := 4, is_correct := true },
       { pk := some 2, format := .text, value := "B", marks := 5, is_correct := false }]
      (Or.inl rfl)).2 (by norm_num)
    norm_num at h
    exact h

/-- C6: `validate_total_marks` is a no-op success for every question whose
type is NAT (NumericAnswer) or DESC (Descriptive), for every content of
the supplied choices. -/
theorem validate_total_marks_noop_other_types (q : Question)
    (choices : List ChoiceSolution)
    (h : q.type = QType.NAT ∨ q.type = QType.DESC) :
    validate_total_marks q choices = .ok () := by
  rcases h with h | h <;> simp [validate_total_marks, h]

/-- Witness for C6: a Descriptive question with wildly inconsistent choice
marks still validates. -/
theorem validate_total_marks_noop_other_types_witness :
    validate_total_marks
        { type := QType.DESC, marks := 10, partial_marking := false }
        [{ pk := none, format := .image, value := "junk", marks := 999, is_correct := true }]
      = .ok () :=
  validate_total_marks_noop_other_types _ _ (Or.inr rfl)

/-- C2 counterexample: with persisted choices pk 1 (correct) and pk 2
(correct), re-saving pk 1 as correct satisfies the claim's precondition —
a distinct sibling (pk 2) is already flagged correct — yet
`ChoiceSolution.clean` succeeds, because `self.pk` is among the correct
choices' pks, so the claim's first clause is false on the code. -/
theorem choice_clean_distinct_correct_counterexample :
    ChoiceSolution.clean QType.MCQ
        [{ pk := some 1, format := .text, value := "A", marks := 5, is_correct := true },
         { pk := some 2, format := .text, value := "B", marks := 5, is_correct := true }]
        { pk := some 1, format := .text, value := "A", marks := 5, is_correct := true }
      = .ok () ∧
    (∃ c ∈ [({ pk := some 1, format := .text, value := "A", marks := 5, is_correct := true } : ChoiceSolution),
            { pk := some 2, format := .text, value := "B", marks := 5, is_correct := true }],
      c.is_correct = true ∧ c.pk ≠ some 1) := by
  refine ⟨rfl, ⟨{ pk := some 2, format := .text, value := "B", marks := 5, is_correct := true }, ?_, rfl, ?_⟩⟩
  · exact List.Mem.tail _ (List.Mem.head _)
  · simp

/-- C2 amended: for an MCQ (SingleChoice) question, committing a
correct-flagged choice fails with `MultipleCorrectChoices` exactly when
some persisted choice is flagged correct and the committed choice's pk is
not among the correct choices' pks; when its pk is among them the commit
succeeds — in particular a choice re-saved under the same primary key
that is already the sole correct choice does not count against itself. -/
theorem choice_clean_duplicate_correct (siblings : List ChoiceSolution)
    (self : ChoiceSolution) :
    (self.is_correct = true →
      (∃ c ∈ siblings, c.is_correct = true) →
      self.pk ∉ (siblings.filter (·.is_correct)).map (·.pk) →
      ChoiceSolution.clean QType.MCQ siblings self
        = .error .MultipleCorrectChoices) ∧
    (self.pk ∈ (siblings.filter (·.is_correct)).map (·.pk) →
      ChoiceSolution.clean QType.MCQ siblings self = .ok ()) ∧
    (∀ c, siblings.filter (·.is_correct) = [c] → c.pk = self.pk →
      ChoiceSolution.clean QType.MCQ siblings self = .ok ()) := by
  refine ⟨?_, ?_, ?_⟩
  · intro hc hex hnot
    have hcond : self.is_correct = true ∧
        ¬(siblings.filter (·.is_correct)).isEmpty = true ∧
        self.pk ∉ (siblings.filter (·.is_correct)).map (·.pk) := by
      refine ⟨hc, ?_, hnot⟩
      obtain ⟨c, hcs, hcc⟩ := hex
      have hmem : c ∈ siblings.filter (·.is_correct) :=
        List.mem_filter.mpr ⟨hcs, hcc⟩
      simp only [List.isEmpty_iff]
      exact List.ne_nil_of_mem hmem
    simp only [ChoiceSolution.clean, if_pos rfl]
    rw [if_pos hcond]
    simp
  · intro hmem
    have hncond : ¬(self.is_correct = true ∧
        ¬(siblings.filter (·.is_correct)).isEmpty = true ∧
        self.pk ∉ (siblings.filter (·.is_correct)).map (·.pk)) := by
      rintro ⟨-, -, hnmem⟩
      exact hnmem hmem
    simp only [ChoiceSolution.clean, if_pos rfl]
    rw [if_neg hncond]
    simp
  · intro c hfil hpk
    have hncond : ¬(self.is_correct = true ∧
        ¬(siblings.filter (·.is_correct)).isEmpty = true ∧
        self.pk ∉ (siblings.filter (·.is_correct)).map (·.pk)) := by
      rintro ⟨-, -, hnmem⟩
      apply hnmem
      rw [hfil]
      simp [hpk]
    simp only [ChoiceSolution.clean, if_pos rfl]
    rw [if_neg hncond]
    simp

/-- Witness for C2 amended: saving a new correct choice (pk 2) next to a
persisted correct choice (pk 1) fails; re-saving pk 1, the sole correct
choice, succeeds; and re-saving pk 1 as correct while pk 2 is also
correct succeeds because pk 1 is among the correct pks. -/
theorem choice_clean_duplicate_correct_witness :
    ChoiceSolution.clean QType.MCQ
        [{ pk := some 1, format := .text, value := "A", marks := 5, is_correct := true }]
        { pk := some 2, format := .text, value := "B", marks := 5, is_correct := true }
      = .error .MultipleCorrectChoices ∧
    ChoiceSolution.clean QType.MCQ
        [{ pk := some 1, format := .text, value := "A", marks := 5, is_correct := true },
         { pk := some 2, format := .text, value := "B", marks := 5, is_correct := false }]
        { pk := some 1, format := .text, value := "A", marks := 5, is_correct := true }
      = .ok () ∧
    ChoiceSolution.clean QType.MCQ
        [{ pk := some 1, format := .text, value := "A", marks := 5, is_correct := true },
         { pk := some 2, format := .text, value := "B", marks := 5, is_correct := true }]
        { pk := some 1, format := .text, value := "A", marks := 5, is_correct := true }
      = .ok () := by
  refine ⟨?_, ?_, ?_⟩
  · exact (choice_clean_duplicate_correct _ _).1 rfl ⟨_, List.Mem.head _, rfl⟩
      (by simp)
  · exact (choice_clean_duplicate_correct _ _).2.2
      { pk := some 1, format := .text, value := "A", marks := 5, is_correct := true }
      rfl rfl
  · exact (choice_clean_duplicate_correct _ _).2.1 (by simp)

/-- C9: for an MCQ (SingleChoice) question, committing a choice whose
`is_correct` flag is false always passes `ChoiceSolution.clean`, even when
several persisted siblings are already flagged correct. -/
theorem choice_clean_incorrect_ignored (siblings : List ChoiceSolution)
    (self : ChoiceSolution) (h : self.is_correct = false) :
    ChoiceSolution.clean QType.MCQ siblings self = .ok () := by
  simp [ChoiceSolution.clean, h]

/-- Witness for C9: saving an incorrect choice next to two correct-flagged
siblings (an already-violating set) raises no error. -/
theorem choice_clean_incorrect_ignored_witness :
    ChoiceSolution.clean QType.MCQ
        [{ pk := some 1, format := .text, value := "A", marks := 5, is_correct := true },
         { pk := some 2, format := .text, value := "B", marks := 5, is_correct := true }]
        { pk := some 3, format := .text, value := "C", marks := 0, is_correct := false }
      = .ok () :=
  choice_clean_incorrect_ignored _ _ rfl

/-- C3 counterexample: an MSQ question with `partial_marking = true` and
choice marks summing to 9 against declared marks 10 does get the marks-sum
check and fails with `MarksMismatch 9 10` — so the marks-sum rule (I2) is
run against such questions; moreover `ChoiceSolution.clean` never fires
for MSQ, so the single-correct-choice rule is not applied either. -/
theorem partial_marking_counterexample :
    validate_total_marks
        { type := QType.MSQ, marks := 10, partial_marking := true }
        [{ pk := some 1, format := .text, value := "A", marks := 4, is_correct := true },
         { pk := some 2, format := .text, value := "B", marks := 5, is_correct := true }]
      = .error (.MarksMismatch 9 10) ∧
    ChoiceSolution.clean QType.MSQ
        [{ pk := some 1, format := .text, value := "A", marks := 4, is_correct := true }]
        { pk := some 2, format := .text, value := "B", marks := 5, is_correct := true }
      = .ok () := by
  constructor
  · norm_num [validate_total_marks]
  · rfl

/-- C3 amended: for every MSQ (MultiChoice) question with
`partial_marking = true`, validation behaves exactly as with
`partial_marking = false` — the marks-sum rule is applied unchanged, and
the single-correct-choice rule is never applied to MSQ questions. -/
theorem partial_marking_no_effect (q : Question)
    (choices siblings : List ChoiceSolution) (self : ChoiceSolution)
    (hq : q.type = QType.MSQ) (_hpm : q.partial_marking = true) :
    validate_total_marks q choices
        = validate_total_marks
            { type := q.type, marks := q.marks, partial_marking := false }
            choices ∧
    ((choices.map (·.marks)).sum ≠ (q.marks : ℚ) →
      validate_total_marks q choices
        = .error (.MarksMismatch ((choices.map (·.marks)).sum) q.marks)) ∧
    ChoiceSolution.clean q.type siblings self = .ok () := by
  refine ⟨rfl, ?_, ?_⟩
  · intro hne
    unfold validate_total_marks
    rw [if_pos (Or.inr hq)]
    simp only [hne, if_pos]
    rw [if_pos hne]
  · simp [ChoiceSolution.clean, hq]

/-- Witness for C3 amended: the MSQ question with `partial_marking = true`,
marks 10 and choice marks 4 and 5 fails the marks-sum check, and its
choice-level clean is a no-op. -/
theorem partial_marking_no_effect_witness :
    validate_total_marks
        { type := QType.MSQ, marks := 10, partial_marking := true }
        [{ pk := some 1, format := .text, value := "A", marks := 4, is_correct := true },
         { pk := some 2, format := .text, value := "B", marks := 5, is_correct := true }]
      = .error (.MarksMismatch 9 10) ∧
    ChoiceSolution.clean QType.MSQ
        [{ pk := some 1, format := .text, value := "A", marks := 4, is_correct := true }]
        { pk := some 2, format := .text, value := "B", marks := 5, is_correct := true }
      = .ok () := by
  have h := partial_marking_no_effect
    { type := QType.MSQ, marks := 10, partial_marking := true }
    [{ pk := some 1, format := .text, value := "A", marks := 4, is_correct := true },
     { pk := some 2, format := .text, value := "B", marks := 5, is_correct := true }]
    [{ pk := some 1, format := .text, value := "A", marks := 4, is_correct := true }]
    { pk := some 2, format := .text, value := "B", marks := 5, is_correct := true }
    rfl rfl
  constructor
  · have h2 := h.2.1 (by norm_num)
    norm_num at h2
    exact h2
  · exact h.2.2

/-- Helper: with a declared precision present, `NATSolution.clean` can
never report `MissingPrecision`. -/
theorem nat_clean_some_precision_ne_missing (s : NATSolution) (p : ℕ)
    (hp : s.decimal_precision = some p) :
    s.clean ≠ Except.error NATError.MissingPrecision := by
  by_cases hvt : s.value_type = ValueType.float
  · simp only [NATSolution.clean, hvt, hp, if_true]
    split
    · simp
    · split
      · simp
      · split <;> simp
  · simp [NATSolution.clean, hvt]

/-- C4: for a float-typed solution with declared precision `p`, `clean`
succeeds iff `value`, `tolerance_min` (if present) and `tolerance_max`
(if present) each have at most `p` digits after the decimal point, and a
field exceeding `p` yields a `PrecisionViolation` naming that field. -/
theorem nat_clean_precision_fields (s : NATSolution) (p : ℕ)
    (hvt : s.value_type = ValueType.float)
    (hp : s.decimal_precision = some p) :
    (s.clean = .ok () ↔
      (decimal_part s.value).length ≤ p ∧
      (∀ t, s.tolerance_min = some t → (decimal_part t).length ≤ p) ∧
      (∀ t, s.tolerance_max = some t → (decimal_part t).length ≤ p)) ∧
    (p < (decimal_part s.value).length →
      s.clean = .error (.PrecisionViolation "value" p)) ∧
    (∀ t, s.tolerance_min = some t → p < (decimal_part t).length →
      (decimal_part s.value).length ≤ p →
      s.clean = .error (.PrecisionViolation "tolerance_min" p)) ∧
    (∀ t, s.tolerance_max = some t → p < (decimal_part t).length →
      (decimal_part s.value).length ≤ p →
      (∀ u, s.tolerance_min = some u → (decimal_part u).length ≤ p) →
      s.clean = .error (.PrecisionViolation "tolerance_max" p)) := by
  refine ⟨?_, ?_, ?_, ?_⟩
  · rcases hmin : s.tolerance_min with _ | a <;>
    rcases hmax : s.tolerance_max with _ | b <;>
    by_cases hv : (decimal_part s.value).length ≤ p <;>
    (try by_cases ha : (decimal_part a).length ≤ p) <;>
    (try by_cases hb : (decimal_part b).length ≤ p) <;>
    simp [NATSolution.clean, validate_decimal_precision, hvt, hp, hmin, hmax,
      hv, *]
  · intro hlt
    have hv : ¬ (decimal_part s.value).length ≤ p := not_le.mpr hlt
    simp [NATSolution.clean, validate_decimal_precision, hvt, hp, hv]
  · intro t hmin hlt hvok
    have ht : ¬ (decimal_part t).length ≤ p := not_le.mpr hlt
    simp [NATSolution.clean, validate_decimal_precision, hvt, hp, hmin, hvok, ht]
  · intro t hmax hlt hvok hminok
    have ht : ¬ (decimal_part t).length ≤ p := not_le.mpr hlt
    rcases hmin : s.tolerance_min with _ | u
    · simp [NATSolution.clean, validate_decimal_precision, hvt, hp, hmin, hmax,
        hvok, ht]
    · have hu := hminok u hmin
      simp [NATSolution.clean, validate_decimal_precision, hvt, hp, hmin, hmax,
        hvok, ht, hu]

/-- Witness for C4: with declared precision 2, value `3.14` passes and
value `3.145` fails with a violation on the field named `value`, its
actual digit count being 3. -/
theorem nat_clean_precision_fields_witness :
    NATSolution.clean
        { value_type := .float, value := "3.14", tolerance_min := none,
          tolerance_max := none, decimal_precision := some 2 } = .ok () ∧
    NATSolution.clean
        { value_type := .float, value := "3.145", tolerance_min := none,
          tolerance_max := none, decimal_precision := some 2 }
      = .error (.PrecisionViolation "value" 2) ∧
    (decimal_part "3.145").length = 3 := by
  refine ⟨?_, ?_, by decide⟩
  · exact (nat_clean_precision_fields _ 2 rfl rfl).1.mpr
      ⟨by decide, by simp, by simp⟩
  · exact (nat_clean_precision_fields _ 2 rfl rfl).2.1 (by decide)

/-- C5: `clean` reports `MissingPrecision` exactly when the value type is
float and `decimal_precision` is null, and an int-typed solution always
passes with no precision check at all. -/
theorem nat_clean_missing_precision (s : NATSolution) :
    (s.clean = .error NATError.MissingPrecision ↔
      s.value_type = ValueType.float ∧ s.decimal_precision = none) ∧
    (s.value_type = ValueType.int → s.clean = .ok ()) := by
  constructor
  · constructor
    · intro h
      by_cases hvt : s.value_type = ValueType.float
      · rcases hp : s.decimal_precision with _ | p
        · exact ⟨hvt, rfl⟩
        · exact absurd h (nat_clean_some_precision_ne_missing s p hp)
      · simp [NATSolution.clean, hvt] at h
    · rintro ⟨hvt, hp⟩
      simp [NATSolution.clean, hvt, hp]
  · intro hvt
    simp [NATSolution.clean, hvt]

/-- Witness for C5: a float-typed solution without a declared precision
fails with `MissingPrecision`, while an int-typed solution with no
precision and fractional-looking fields passes. -/
theorem nat_clean_missing_precision_witness :
    NATSolution.clean
        { value_type := .float, value := "3.14", tolerance_min := none,
          tolerance_max := none, decimal_precision := none }
      = .error NATError.MissingPrecision ∧
    NATSolution.clean
        { value_type := .int, value := "3.14159", tolerance_min := some "0.123456",
          tolerance_max := some "9.999999", decimal_precision := none }
      = .ok () := by
  constructor
  · exact (nat_clean_missing_precision _).1.mpr ⟨rfl, rfl⟩
  · exact (nat_clean_missing_precision _).2 rfl

/-- C7: `clean` never cross-validates the tolerance bounds: whenever both
bounds are present and each field individually satisfies the precision
rule (or the value type is int), validation succeeds — no hypothesis
relates `tolerance_min` to `tolerance_max`, so out-of-order bounds pass. -/
theorem nat_clean_no_bounds_cross_check (s : NATSolution) (tmin tmax : String)
    (hmin : s.tolerance_min = some tmin) (hmax : s.tolerance_max = some tmax)
    (h : s.value_type = ValueType.int ∨
      ∃ p, s.decimal_precision = some p ∧
        (decimal_part s.value).length ≤ p ∧
        (decimal_part tmin).length ≤ p ∧
        (decimal_part tmax).length ≤ p) :
    s.clean = .ok () := by
  rcases h with h | ⟨p, hp, hv, h1, h2⟩
  · simp [NATSolution.clean, h]
  · by_cases hvt : s.value_type = ValueType.float
    · simp [NATSolution.clean, validate_decimal_precision, hvt, hp, hmin, hmax,
        hv, h1, h2]
    · simp [NATSolution.clean, hvt]

/-- Witness for C7: a float solution with `tolerance_min = 5.0` strictly
above `tolerance_max = 1.0` passes, and so does an int solution with
out-of-order bounds. -/
theorem nat_clean_no_bounds_cross_check_witness :
    NATSolution.clean
        { value_type := .float, value := "2.0", tolerance_min := some "5.0",
          tolerance_max := some "1.0", decimal_precision := some 1 } = .ok () ∧
    NATSolution.clean
        { value_type := .int, value := "7", tolerance_min := some "9.123",
          tolerance_max := some "1.456", decimal_precision := none } = .ok () := by
  constructor
  · exact nat_clean_no_bounds_cross_check _ "5.0" "1.0" rfl rfl
      (Or.inr ⟨1, rfl, by decide, by decide, by decide⟩)
  · exact nat_clean_no_bounds_cross_check _ "9.123" "1.456" rfl rfl (Or.inl rfl)

/-- C8: `clean` returns the first violation in a fixed order:
`MissingPrecision` before any `PrecisionViolation` (whatever the fields
hold), then `value` before `tolerance_min` before `tolerance_max`. -/
theorem nat_clean_first_violation_order (s : NATSolution) (p : ℕ)
    (hvt : s.value_type = ValueType.float) :
    (s.decimal_precision = none → s.clean = .error NATError.MissingPrecision) ∧
    (s.decimal_precision = some p → ¬ (decimal_part s.value).length ≤ p →
      s.clean = .error (.PrecisionViolation "value" p)) ∧
    (∀ t, s.decimal_precision = some p → (decimal_part s.value).length ≤ p →
      s.tolerance_min = some t → ¬ (decimal_part t).length ≤ p →
      s.clean = .error (.PrecisionViolation "tolerance_min" p)) ∧
    (∀ t, s.decimal_precision = some p → (decimal_part s.value).length ≤ p →
      (∀ u, s.tolerance_min = some u → (decimal_part u).length ≤ p) →
      s.tolerance_max = some t → ¬ (decimal_part t).length ≤ p →
      s.clean = .error (.PrecisionViolation "tolerance_max" p)) := by
  refine ⟨?_, ?_, ?_, ?_⟩
  · intro hp
    simp [NATSolution.clean, hvt, hp]
  · intro hp hv
    simp [NATSolution.clean, validate_decimal_precision, hvt, hp, hv]
  · intro t hp hv hmin ht
    simp [NATSolution.clean, validate_decimal_precision, hvt, hp, hmin, hv, ht]
  · intro t hp hv hminok hmax ht
    rcases hmin : s.tolerance_min with _ | u
    · simp [NATSolution.clean, validate_decimal_precision, hvt, hp, hmin, hmax,
        hv, ht]
    · have hu := hminok u hmin
      simp [NATSolution.clean, validate_decimal_precision, hvt, hp, hmin, hmax,
        hv, ht, hu]

/-- Witness for C8: a solution whose every field would violate precision 1
reports `MissingPrecision` when the precision is null; with the precision
declared, the violation is reported on `value`, then on `tolerance_min`
once `value` is fine, then on `tolerance_max` once both are fine. -/
theorem nat_clean_first_violation_order_witness :
    NATSolution.clean
        { value_type := .float, value := "1.55", tolerance_min := some "2.55",
          tolerance_max := some "3.55", decimal_precision := none }
      = .error NATError.MissingPrecision ∧
    NATSolution.clean
        { value_type := .float, value := "1.55", tolerance_min := some "2.55",
          tolerance_max := some "3.55", decimal_precision := some 1 }
      = .error (.PrecisionViolation "value" 1) ∧
    NATSolution.clean
        { value_type := .float, value := "1.5", tolerance_min := some "2.55",
          tolerance_max := some "3.55", decimal_precision := some 1 }
      = .error (.PrecisionViolation "tolerance_min" 1) ∧
    NATSolution.clean
        { value_type := .float, value := "1.5", tolerance_min := some "2.5",
          tolerance_max := some "3.55", decimal_precision := some 1 }
      = .error (.PrecisionViolation "tolerance_max" 1) := by
  refine ⟨?_, ?_, ?_, ?_⟩
  · exact (nat_clean_first_violation_order _ 1 rfl).1 rfl
  · exact (nat_clean_first_violation_order _ 1 rfl).2.1 rfl (by decide)
  · exact (nat_clean_first_violation_order _ 1 rfl).2.2.1 "2.55" rfl (by decide)
      rfl (by decide)
  · exact (nat_clean_first_violation_order _ 1 rfl).2.2.2 "3.55" rfl (by decide)
      (by intro u hu; injection hu with h; subst h; decide) rfl (by decide)

/-- C10: the digit count comes from splitting the serialized form on the
dot, counting zero digits when no dot appears, so a dot-free serialization
such as scientific notation passes the precision check for every declared
precision, including 0. -/
theorem validate_decimal_precision_no_dot (number : String) (precision : ℕ)
    (h : number.data.contains '.' = false) :
    decimal_part number = [] ∧
    validate_decimal_precision number precision = true := by
  have hd : decimal_part number = [] := by
    have h2 : '.' ∉ number.data := by simpa using h
    simp [decimal_part, h2]
  refine ⟨hd, ?_⟩
  simp [validate_decimal_precision, hd]

/-- Witness for C10: the scientific-notation serialization `1e-07` has no
dot, counts zero fractional digits, and passes even at precision 0. -/
theorem validate_decimal_precision_no_dot_witness :
    decimal_part "1e-07" = [] ∧
    validate_decimal_precision "1e-07" 0 = true :=
  validate_decimal_precision_no_dot "1e-07" 0 (by decide)

end Assessment
